import Mathlib

/-
Verification development for the `verilog2pwl` dataflow core
(`src/dataflow/types.py`, `src/dataflow/helper.py`, `src/dataflow/parser.py`).

The Python code is shallowly embedded: mutable objects become explicit
state passing, Python exceptions become `Except PyError`, Python `float`
values are modelled as exact rationals (every numeric value reachable in
this program is a terminating decimal: the unit table holds powers of ten
and all results pass through `round(_, 3)`), and Python `dict`s become
insertion-ordered association lists.
-/

deriving instance DecidableEq for Except

namespace Dataflow

/-- Kinds of Python exceptions that the embedded code can raise. -/
inductive PyError where
  | assertionError (msg : String)
  | attributeError (msg : String)
  | valueError (msg : String)
  | typeError (msg : String)
  | systemExit (code : Int)
  deriving Repr, DecidableEq

/-- Round a rational to the nearest integer, ties to even: the rounding used
by Python's builtin `round`. -/
def roundHalfEven (q : ℚ) : ℤ :=
  let f : ℤ := Rat.floor q
  let r : ℚ := q - (f : ℚ)
  if r < 1/2 then f
  else if 1/2 < r then f + 1
  else if f % 2 = 0 then f else f + 1

/-- Python `round(x, 3)` (the module constant `TIMESCALE_ROUNDING = 3`). -/
def pyRound3 (q : ℚ) : ℚ := ((roundHalfEven (q * 1000) : ℤ) : ℚ) / 1000

/-- Decimal digits of the fractional part `q` (`0 ≤ q < 1`), most significant
first, stopping when the remainder is zero.  The fuel bounds recursion; every
value reachable in the program is a terminating decimal (denominator dividing
`1000`), so the fuel is never exhausted there. -/
def fracDigits : ℚ → ℕ → List ℕ
  | _, 0 => []
  | q, Nat.succ fuel =>
    if q = 0 then []
    else
      let q10 := q * 10
      let d := Rat.floor q10
      d.toNat :: fracDigits (q10 - (d : ℚ)) fuel

/-- Python `repr`/str of a nonnegative float holding a terminating decimal:
integer part, a dot, then the fractional digits with trailing zeros stripped
but at least one digit kept (`repr(5.0) = "5.0"`, `repr(5.25) = "5.25"`). -/
def pyFloatReprNN (q : ℚ) : String :=
  let ip := Rat.floor q
  let ds := fracDigits (q - (ip : ℚ)) 17
  let core := if ds.isEmpty then "0" else String.join (ds.map (fun d => toString d))
  toString ip ++ "." ++ core

/-- Python `repr`/str of a float holding a terminating decimal. -/
def pyFloatRepr (q : ℚ) : String :=
  if q < 0 then "-" ++ pyFloatReprNN (-q) else pyFloatReprNN q

/-- Numeric value of a list of decimal digit characters. -/
def digitsVal (cs : List Char) : ℕ :=
  cs.foldl (fun a c => a * 10 + (c.toNat - 48)) 0

/-- Split a character list at every character satisfying `p`, keeping empty
fields (the character level of Python `str.split(sep)`). -/
def splitOnPred (p : Char → Bool) : List Char → List (List Char)
  | [] => [[]]
  | c :: rest =>
    if p c then [] :: splitOnPred p rest
    else
      match splitOnPred p rest with
      | [] => [[c]]
      | g :: gs => (c :: g) :: gs

/-- Python `float(s)` on the token strings occurring here (plain decimal
numerals; names such as `trf` and the operator `+` fail).  Returns `none`
where Python raises `ValueError`. -/
def pyParseFloat (s : String) : Option ℚ :=
  match splitOnPred (fun c => c = Char.ofNat 46) s.toList with
  | [a] =>
    if a.length > 0 && a.all Char.isDigit then
      some ((digitsVal a : ℕ) : ℚ)
    else none
  | [a, b] =>
    if (a.length + b.length > 0) && a.all Char.isDigit && b.all Char.isDigit then
      some ((digitsVal a : ℚ) + (digitsVal b : ℚ) / ((10 : ℚ) ^ b.length))
    else none
  | _ => none

/-- Python string repetition `s * n`. -/
def pyStrRepeat (s : String) (n : ℕ) : String :=
  String.join (List.replicate n s)

/-- Python `" ".join(args)`: the elements separated by single spaces. -/
def pyJoinSpace : List String → String
  | [] => ""
  | x :: xs => xs.foldl (fun a b => a ++ " " ++ b) x

/-- Abstract form of the expressions handed to `helper.eval_expr`:
an integer or float literal, a bare symbol (`trf`/`tcrf`), or the sum of a
symbol and a float literal (`sympify` of `f"{t} + {rf_identifier}"`). -/
inductive SymExpr where
  | litInt (n : ℤ)
  | litFloat (q : ℚ)
  | sym (name : String)
  | symAddFloat (name : String) (q : ℚ)
  deriving Repr, DecidableEq

/-- The whitespace-split tokens of `str(sympify(e))`.  Sympy prints an `Add`
with the symbol term before the numeric term (`trf + 5.0`), and prints a
literal as a plain numeral whose `float(_)` value is the literal itself; the
minimal decimal spelling is used, which classifies and re-parses identically
to sympy's spelling for every use below. -/
def sympyTokens : SymExpr → List String
  | .litInt n => [toString n]
  | .litFloat q => [pyFloatRepr q]
  | .sym s => [s]
  | .symAddFloat s q => [s, "+", pyFloatRepr q]

/-- Sequential mapping of a fallible function over a list, aborting at the
first exception — the semantics of the token loop building `_args` in
`eval_expr` and of the other accumulation loops below. -/
def exceptMapList {ε α β : Type} (f : α → Except ε β) : List α → Except ε (List β)
  | [] => Except.ok []
  | x :: xs =>
    match f x with
    | Except.error e => Except.error e
    | Except.ok y =>
      match exceptMapList f xs with
      | Except.error e => Except.error e
      | Except.ok ys => Except.ok (y :: ys)

/-- Sequential fallible fold over a list, aborting at the first exception —
the semantics of the timeline `for` loop of `generate_piecewise_linear`. -/
def exceptFoldList {ε σ α : Type} (f : σ → α → Except ε σ) : σ → List α → Except ε σ
  | s, [] => Except.ok s
  | s, x :: xs =>
    match f s x with
    | Except.error e => Except.error e
    | Except.ok s2 => exceptFoldList f s2 xs

/-- `helper.eval_expr(e, base, unit)` on the unit-given path: for each token
of `str(sympify(e))`, a token that `float()` rejects is kept verbatim, and a
numeric token is replaced by `f"{float(arg * int(base))}{unit}"` (note
`arg * int(base)` is Python *string repetition*); the tokens are re-joined
with single spaces. -/
def eval_expr (e : SymExpr) (base : ℕ) (unit : String) : Except PyError String :=
  match exceptMapList (fun arg =>
    match pyParseFloat arg with
    | none => Except.ok arg
    | some _ =>
      match pyParseFloat (pyStrRepeat arg base) with
      | some v => Except.ok (pyFloatRepr v ++ unit)
      | none =>
        Except.error (PyError.valueError "could not convert string to float"))
    (sympyTokens e) with
  | Except.error e2 => Except.error e2
  | Except.ok args => Except.ok (pyJoinSpace args)

/-- `types.TimeScale`: the `$timescale` header of the trace. -/
structure TimeScale where
  base_num : ℕ := 1
  base_unit : String := "ps"
  deriving Repr, DecidableEq

/-- The `_unit_conversion` table built in `TimeScale.__post_init__`
(`ms ↦ 1e3, us ↦ 1e6, ns ↦ 1e9, ps ↦ 1e12`); `none` models a `dict.get`
miss. -/
def unit_conversion (u : String) : Option ℚ :=
  if u = "ms" then some 1000
  else if u = "us" then some 1000000
  else if u = "ns" then some 1000000000
  else if u = "ps" then some 1000000000000
  else none

/-- `TimeScale.convert_to`: `_mul = table[unit] / table[base_unit]` followed by
`round(float(timestamp * _mul), 3)`.  A `dict.get` miss yields `None` and the
division then raises `TypeError`.  Note the stored `base_num` is not used. -/
def TimeScale.convert_to (ts : TimeScale) (timestamp : ℕ) (unit : String) :
    Except PyError ℚ :=
  match unit_conversion unit, unit_conversion ts.base_unit with
  | some a, some b => Except.ok (pyRound3 ((timestamp : ℚ) * (a / b)))
  | _, _ => Except.error (PyError.typeError "unsupported operand type for /")

/-- Calling `convert_to` through a possibly-`None` timescale reference
(`self.timescale.convert_to(...)` raises `AttributeError` on `None`). -/
def optConvert (ots : Option TimeScale) (timestamp : ℕ) (unit : String) :
    Except PyError ℚ :=
  match ots with
  | none => Except.error (PyError.attributeError "NoneType object has no attribute convert_to")
  | some ts => ts.convert_to timestamp unit

/-- The declared kind of a signal: the `Register` dataclass or its
behaviourally identical subclass `Wire`. -/
inductive VarKind where
  | reg
  | wire
  deriving Repr, DecidableEq

/-- `types.Register` (and `types.Wire`): a declared signal with its value
timeline.  `data` is the last decoded bit array (initially `np.zeros(width)`),
`timing_assignments` the insertion-ordered map from timestamp to bit array,
`export_pwl_safe` the export flag. -/
structure Register where
  kind : VarKind := VarKind.reg
  name : String
  width : ℕ := 1
  dim : ℕ := 0
  data : List ℕ := []
  timing_assignments : List (ℕ × List ℕ) := []
  export_pwl_safe : Bool := true
  deriving Repr, DecidableEq

/-- Construction of a `Register`/`Wire` as done by the dataclass constructor
plus `__post_init__` (`data = np.zeros(width)`, empty timeline, export-safe). -/
def Register.make (kind : VarKind) (name : String) (width : ℕ) (dim : ℕ) : Register :=
  { kind := kind, name := name, width := width, dim := dim,
    data := List.replicate width 0, timing_assignments := [],
    export_pwl_safe := true }

/-- `Register.tag`: `export_pwl_safe = not x_state`. -/
def Register.tag (r : Register) (x_state : Bool) : Register :=
  { r with export_pwl_safe := !x_state }

/-- Halving recursion for `pyBitLength`, structural on a fuel argument so
that it evaluates by kernel reduction; `fuel = n + 1` always suffices. -/
def bitLenAux : ℕ → ℕ → ℕ
  | 0, _ => 0
  | Nat.succ fuel, n => if n = 0 then 0 else bitLenAux fuel (n / 2) + 1

/-- Python `int.bit_length()` for nonnegative integers: the number of binary
digits of `n`, with `bit_length(0) = 0`. -/
def pyBitLength (n : ℕ) : ℕ :=
  bitLenAux (n + 1) n

/-- `Register.int2bit_array`: raise `ValueError` when the value needs more
bits than `width`, else the MSB-first bit array (`bits[width-1-i] =
(value >> i) & 1`, i.e. position `p` holds bit `width-1-p`). -/
def Register.int2bit_array (r : Register) (value : ℕ) : Except PyError (List ℕ) :=
  if pyBitLength value > r.width then
    Except.error (PyError.valueError
      ("Value " ++ toString value ++ " requires more than " ++ toString r.width ++ " bits."))
  else
    Except.ok ((List.range r.width).map (fun p => (value >>> (r.width - 1 - p)) &&& 1))

/-- Update of an insertion-ordered Python `dict`: an existing key keeps its
position and gets the new value, a new key is appended. -/
def pyDictUpdate {κ α : Type} [DecidableEq κ] : List (κ × α) → κ → α → List (κ × α)
  | [], k, v => [(k, v)]
  | (k0, v0) :: rest, k, v =>
    if k0 = k then (k, v) :: rest else (k0, v0) :: pyDictUpdate rest k v

/-- Lookup in an insertion-ordered Python `dict` (`dict.get`). -/
def pyDictGet {κ α : Type} [DecidableEq κ] : List (κ × α) → κ → Option α
  | [], _ => none
  | (k0, v0) :: rest, k => if k0 = k then some v0 else pyDictGet rest k

/-- Membership test on an insertion-ordered Python `dict` (`k in d.keys()`). -/
def pyDictContains {κ α : Type} [DecidableEq κ] (d : List (κ × α)) (k : κ) : Bool :=
  (pyDictGet d k).isSome

/-- `Register.update`: decode the integer (which may raise `ValueError`, in
which case the register is untouched and the error propagates, returned here
as `some e`), then store the bit array in the timeline and as `data`. -/
def Register.update (r : Register) (timestamp : ℕ) (value : ℕ) :
    Register × Option PyError :=
  match r.int2bit_array value with
  | Except.error e => (r, some e)
  | Except.ok bit_value =>
    ({ r with timing_assignments := pyDictUpdate r.timing_assignments timestamp bit_value,
              data := bit_value }, none)

/-- Projection of a stored bit array to one bit position, as the PWL level
token: `'vvdd' if bit_value[data_idx] else '0'`. -/
def levelOf (bit_value : List ℕ) (m : ℕ) : String :=
  if bit_value.getD m 0 ≠ 0 then "vvdd" else "0"

/-- The rise/fall parameter name chosen in `generate_piecewise_linear`:
`'tcrf' if self.name == 'CLK' else 'trf'`. -/
def rf_identifier (r : Register) : String :=
  if r.name = "CLK" then "tcrf" else "trf"

/-- The clause appended for a level transition in
`Register.generate_piecewise_linear`: convert the tick to `ns`, format it
through `eval_expr`; when `expr.get(rf_identifier) == 0` append the two-point
clause `'t' prev 't+rf' crnt`, otherwise the single-point clause `'t' crnt`. -/
def transition_clause (r : Register) (timescale : Option TimeScale)
    (expr : List (String × ℚ)) (timestamp : ℕ) (prev crnt : String) :
    Except PyError String :=
  let rf := rf_identifier r
  match optConvert timescale timestamp "ns" with
  | Except.error e => Except.error e
  | Except.ok t =>
    match eval_expr (SymExpr.litFloat t) 1 "ns" with
    | Except.error e => Except.error e
    | Except.ok t_expr =>
      if pyDictGet expr rf = some 0 then
        match eval_expr (SymExpr.symAddFloat rf t) 1 "ns" with
        | Except.error e => Except.error e
        | Except.ok t_rf =>
          Except.ok ("\x27" ++ t_expr ++ "\x27 " ++ prev ++ " \x27" ++ t_rf ++ "\x27 "
            ++ crnt ++ " ")
      else
        Except.ok ("\x27" ++ t_expr ++ "\x27 " ++ crnt ++ " ")

/-- One iteration of the timeline walk in `generate_piecewise_linear` for bit
position `m`: at the first tick (`_prev == 'na'`) emit `0 <level>` anchored at
time 0; on a level change emit the transition clause; otherwise emit nothing.
`_prev` becomes the current level after every iteration. -/
def pwl_step (r : Register) (timescale : Option TimeScale)
    (expr : List (String × ℚ)) (m : ℕ) (st : String × String)
    (entry : ℕ × List ℕ) : Except PyError (String × String) :=
  let prev := st.1
  let line := st.2
  let crnt := levelOf entry.2 m
  if prev = "na" then
    Except.ok (crnt, line ++ "0 " ++ crnt ++ "\n+")
  else if prev ≠ crnt then
    match transition_clause r timescale expr entry.1 prev crnt with
    | Except.error e => Except.error e
    | Except.ok clause => Except.ok (crnt, line ++ clause)
  else
    Except.ok (crnt, line)

/-- The PWL name of bit position `m` of a signal: `name[width-1-m]` for a bus,
the bare name for a scalar.  (`self.data` is always one-dimensional —
`np.zeros(self.width)` — so the two-dimensional naming branch of the source is
unreachable.) -/
def pwl_name (r : Register) (m : ℕ) : String :=
  if r.width > 1 then r.name ++ "[" ++ toString (r.width - 1 - m) ++ "]"
  else r.name

/-- The header line opened for bit position `m`:
`f"V{pwl_name} {pwl_name} 0 pwl("`. -/
def pwl_header (r : Register) (m : ℕ) : String :=
  "V" ++ pwl_name r m ++ " " ++ pwl_name r m ++ " 0 pwl("

/-- The full PWL block for bit position `m`: header `V<name> <name> 0 pwl(`,
the timeline walk, then `)` and a blank line. -/
def pwl_bit (r : Register) (timescale : Option TimeScale)
    (expr : List (String × ℚ)) (m : ℕ) : Except PyError String :=
  match exceptFoldList (pwl_step r timescale expr m) ("na", pwl_header r m)
      r.timing_assignments with
  | Except.error e => Except.error e
  | Except.ok res => Except.ok (res.2 ++ ")\n\n")

/-- `Register.generate_piecewise_linear`: an export-unsafe signal yields the
empty string; otherwise one PWL block per index of `self.data`
(`np.ndenumerate`), concatenated. -/
def Register.generate_piecewise_linear (r : Register)
    (timescale : Option TimeScale) (expr : List (String × ℚ)) :
    Except PyError String :=
  if !r.export_pwl_safe then Except.ok ""
  else
    match exceptMapList (pwl_bit r timescale expr) (List.range r.data.length) with
    | Except.error e => Except.error e
    | Except.ok pieces => Except.ok (String.join pieces)

/-- `types.Module`: one VCD scope, its signals keyed by wire identifier. -/
structure Module where
  name : String
  variables_ : List (String × Register) := []
  deriving Repr, DecidableEq

/-- `Module.add_signal`: `self.variables_[_identifier] = reg`. -/
def Module.add_signal (m : Module) (identifier : String) (reg : Register) : Module :=
  { m with variables_ := pyDictUpdate m.variables_ identifier reg }

/-- `Module.export_pwl`: concatenate, per stored signal in insertion order,
its piecewise-linear text followed by a newline.  (`Wire` is a subclass of
`Register`, so the `isinstance(reg, Register)` branch is always the one
taken.) -/
def Module.export_pwl (m : Module) (timescale : Option TimeScale)
    (expr : List (String × ℚ)) : Except PyError String :=
  match exceptMapList (fun kv =>
      match kv.2.generate_piecewise_linear timescale expr with
      | Except.error e => Except.error e
      | Except.ok s => Except.ok (s ++ "\n"))
    m.variables_ with
  | Except.error e => Except.error e
  | Except.ok pieces => Except.ok (String.join pieces)

/-- The target of the document's `current_module` reference: Python holds an
object reference that aliases either `self.module` (the top scope), an entry
of `self._shadow_modules`, or `None`. -/
inductive CurrentRef where
  | noneRef
  | topRef
  | shadowRef (i : ℕ)
  deriving Repr, DecidableEq

/-- `types.VCDModule`: the parsed document. -/
structure VCDModule where
  date : String := ""
  version : String := ""
  timescale : Option TimeScale := none
  module : Option Module := none
  currentRef : CurrentRef := CurrentRef.noneRef
  shadow_modules : List Module := []
  signals : List Register := []
  sig_map : List (String × String) := []
  deriving Repr, DecidableEq

/-- Dereference `current_module`. -/
def VCDModule.currentModule (v : VCDModule) : Option Module :=
  match v.currentRef with
  | CurrentRef.noneRef => none
  | CurrentRef.topRef => v.module
  | CurrentRef.shadowRef i => v.shadow_modules[i]?

/-- `self.current_module.add_signal(...)`: raises `AttributeError` when the
reference is `None`; otherwise mutates the referenced module in place. -/
def VCDModule.add_signal_current (v : VCDModule) (identifier : String)
    (reg : Register) : Except PyError VCDModule :=
  match v.currentRef with
  | CurrentRef.noneRef =>
    Except.error (PyError.attributeError "NoneType object has no attribute add_signal")
  | CurrentRef.topRef =>
    match v.module with
    | none =>
      Except.error (PyError.attributeError "NoneType object has no attribute add_signal")
    | some m => Except.ok { v with module := some (m.add_signal identifier reg) }
  | CurrentRef.shadowRef i =>
    match v.shadow_modules[i]? with
    | none =>
      Except.error (PyError.attributeError "NoneType object has no attribute add_signal")
    | some m =>
      Except.ok { v with shadow_modules := v.shadow_modules.set i (m.add_signal identifier reg) }

/-- `VCDModule.add_reg` (and the identical `add_wire`): record the
identifier-to-name mapping, attach the signal to the current module, append it
to the flat signal list. -/
def VCDModule.add_reg (v : VCDModule) (reg : Register) (identifier : String) :
    Except PyError VCDModule :=
  match ({ v with sig_map := pyDictUpdate v.sig_map identifier reg.name
      } : VCDModule).add_signal_current identifier reg with
  | Except.error e => Except.error e
  | Except.ok v2 => Except.ok { v2 with signals := v2.signals ++ [reg] }

/-- `VCDModule.update_module`: the first scope becomes top and current; a
later scope with a different name is appended to `_shadow_modules` and becomes
current; a repeated top name is logged and ignored (the current reference is
left as it was). -/
def VCDModule.update_module (v : VCDModule) (scope : String) : VCDModule :=
  match v.module with
  | none =>
    { v with module := some (Module.mk scope []), currentRef := CurrentRef.topRef }
  | some m =>
    if m.name ≠ scope then
      { v with shadow_modules := v.shadow_modules ++ [Module.mk scope []],
               currentRef := CurrentRef.shadowRef v.shadow_modules.length }
    else v

/-- `VCDModule.is_reg_top_module`: membership of the identifier in the top
module's variables; raises `AttributeError` when no top module exists. -/
def VCDModule.is_reg_top_module (v : VCDModule) (ident : String) :
    Except PyError Bool :=
  match v.module with
  | none =>
    Except.error (PyError.attributeError "NoneType object has no attribute variables")
  | some m => Except.ok (pyDictContains m.variables_ ident)

/-- A value-change payload as it reaches `update_timing_assignment`: either a
decoded integer or a still-textual (ambiguous) string. -/
inductive PyValue where
  | int (n : ℕ)
  | str (s : String)
  deriving Repr, DecidableEq

/-- Replace the register stored under `ident` in the top module (the aliased
in-place mutation of the object obtained from `self.module.variables_`). -/
def VCDModule.setTopVar (v : VCDModule) (ident : String) (reg : Register) : VCDModule :=
  match v.module with
  | none => v
  | some m => { v with module := some { m with variables_ := pyDictUpdate m.variables_ ident reg } }

/-- The part of `VCDModule.update_timing_assignment` that runs once the
top-module membership check has passed (or was skipped by `full`): convert
the timestamp (raising through a `None` or unit-less timescale);
`sys.exit(-1)` on an unresolved identifier; on a string value tag the
register export-unsafe and store nothing; otherwise forward to
`Register.update` (whose `ValueError` propagates). -/
def VCDModule.update_timing_assignment_body (v : VCDModule) (timestamp : ℕ)
    (identifier : String) (value : PyValue) : Except PyError VCDModule :=
  match optConvert v.timescale timestamp "ns" with
  | Except.error e => Except.error e
  | Except.ok _ =>
    match v.module with
    | none =>
      Except.error (PyError.attributeError "NoneType object has no attribute variables")
    | some m =>
      match pyDictGet m.variables_ identifier with
      | none => Except.error (PyError.systemExit (-1))
      | some reg =>
        match value with
        | PyValue.str _ => Except.ok (v.setTopVar identifier (reg.tag true))
        | PyValue.int n =>
          match reg.update timestamp n with
          | (_, some e) => Except.error e
          | (reg2, none) => Except.ok (v.setTopVar identifier reg2)

/-- `VCDModule.update_timing_assignment` proper: skip identifiers outside the
top module unless `full`, then run the body above. -/
def VCDModule.update_timing_assignment (v : VCDModule) (timestamp : ℕ)
    (identifier : String) (value : PyValue) (full : Bool) :
    Except PyError VCDModule :=
  if full then v.update_timing_assignment_body timestamp identifier value
  else
    match v.is_reg_top_module identifier with
    | Except.error e => Except.error e
    | Except.ok mem =>
      if mem then v.update_timing_assignment_body timestamp identifier value
      else Except.ok v

/-- `VCDModule.export_pwl`: write (here: return) the top module's PWL text;
only `self.module` is consulted, never `_shadow_modules`. -/
def VCDModule.export_pwl (v : VCDModule) (expr : List (String × ℚ)) :
    Except PyError String :=
  match v.module with
  | none =>
    Except.error (PyError.attributeError "NoneType object has no attribute export_pwl")
  | some m => m.export_pwl v.timescale expr

/-- The typed VCD tokens consumed by `VCDParser._parse_group` (the kinds
produced by the external `pyvcd` lexer that the interpreter dispatches on). -/
inductive Token where
  | date (s : String)
  | version (s : String)
  | timescaleTok (data : String)
  | scopeTok (ident : String)
  | upscope
  | varTok (type_ : String) (reference : String) (size : ℕ) (id_code : String)
  | changeTime (t : ℕ)
  | changeScalar (id_code : String) (value : PyValue)
  | changeVector (id_code : String) (value : PyValue)
  | dumpvar
  deriving Repr, DecidableEq

/-- One pull from the lexer: either a token or an `AssertionError` the lexer
raises about expected token structure. -/
inductive LexEvent where
  | tok (t : Token)
  | lexAssert (msg : String)
  deriving Repr, DecidableEq

/-- The mutable state threaded through `_parse_group`: the accumulating
document, the `_timestamp` cursor, and the local `scope` name variable. -/
structure ParserState where
  top : VCDModule := {}
  timestamp : ℕ := 0
  scope : Option String := none
  deriving Repr, DecidableEq

/-- Python `str.split()` with no argument: split on whitespace runs, dropping
empty fields. -/
def pySplitWs (s : String) : List String :=
  ((splitOnPred Char.isWhitespace s.toList).filter (fun g => g ≠ [])).map
    (fun g => String.mk g)

/-- Python `int(s)` on the numeral strings occurring here; `none` models
`ValueError`. -/
def pyInt (s : String) : Option ℕ :=
  if s.toList.length > 0 && s.toList.all Char.isDigit then some (digitsVal s.toList)
  else none

/-- The value normalisation in the scalar/vector-change branch of
`_parse_group`: a textual value containing `x` or `z` is kept as a string;
any other string is converted with `int(value)` (raising `ValueError` when
malformed); integers pass through. -/
def normalizeValue (value : PyValue) : Except PyError PyValue :=
  match value with
  | PyValue.int n => Except.ok (PyValue.int n)
  | PyValue.str s =>
    if s.toList.contains 'x' || s.toList.contains 'z' then Except.ok (PyValue.str s)
    else
      match pyInt s with
      | some n => Except.ok (PyValue.int n)
      | none => Except.error (PyError.valueError "invalid literal for int")

/-- The per-token dispatch of `VCDParser._parse_group`. -/
def stepToken (full : Bool) (st : ParserState) (t : Token) :
    Except PyError ParserState :=
  match t with
  | Token.date s => Except.ok { st with top := { st.top with date := s } }
  | Token.version s => Except.ok { st with top := { st.top with version := s } }
  | Token.timescaleTok data =>
    match pySplitWs data with
    | [b, u] =>
      match pyInt b with
      | some n =>
        Except.ok { st with top := { st.top with timescale := some (TimeScale.mk n u) } }
      | none => Except.error (PyError.valueError "invalid literal for int")
    | _ => Except.error (PyError.valueError "unexpected number of values to unpack")
  | Token.scopeTok ident =>
    Except.ok { st with top := st.top.update_module ident, scope := some ident }
  | Token.upscope => Except.ok { st with scope := none }
  | Token.varTok type_ reference size id_code =>
    if type_ = "reg" then
      match st.top.add_reg (Register.make VarKind.reg reference size 0) id_code with
      | Except.error e => Except.error e
      | Except.ok top => Except.ok { st with top := top }
    else if type_ = "wire" then
      match st.top.add_reg (Register.make VarKind.wire reference size 0) id_code with
      | Except.error e => Except.error e
      | Except.ok top => Except.ok { st with top := top }
    else
      Except.ok st
  | Token.changeTime t => Except.ok { st with timestamp := t }
  | Token.changeScalar id_code value =>
    match normalizeValue value with
    | Except.error e => Except.error e
    | Except.ok v =>
      match st.top.update_timing_assignment st.timestamp id_code v full with
      | Except.error e => Except.error e
      | Except.ok top => Except.ok { st with top := top }
  | Token.changeVector id_code value =>
    match normalizeValue value with
    | Except.error e => Except.error e
    | Except.ok v =>
      match st.top.update_timing_assignment st.timestamp id_code v full with
      | Except.error e => Except.error e
      | Except.ok top => Except.ok { st with top := top }
  | Token.dumpvar => Except.ok st

/-- The pull loop of `_parse_group`: fold the lexer events, an exhausted
stream (`StopIteration`) returning the accumulated state, a lexer assertion
surfacing as an `AssertionError`. -/
def runEvents (full : Bool) (st : ParserState) : List LexEvent → Except PyError ParserState
  | [] => Except.ok st
  | LexEvent.lexAssert msg :: _ => Except.error (PyError.assertionError msg)
  | LexEvent.tok t :: rest =>
    match stepToken full st t with
    | Except.error e => Except.error e
    | Except.ok st2 => runEvents full st2 rest

/-- The three ways a call to `VCDParser.parse` can end: the accumulated
document, the logged `Parser Error` return of `None` on a caught
`AssertionError`, or an uncaught exception escaping the method. -/
inductive ParseOutcome where
  | doc (m : VCDModule)
  | parseFailure (msg : String)
  | exn (e : PyError)
  deriving Repr, DecidableEq

/-- `VCDParser.parse`: run `_parse_group` (fresh document, `full=False`)
over the token stream, catching exactly `AssertionError`. -/
def VCDParser.parse (events : List LexEvent) : ParseOutcome :=
  match runEvents false {} events with
  | Except.ok st => ParseOutcome.doc st.top
  | Except.error (PyError.assertionError m) => ParseOutcome.parseFailure m
  | Except.error e => ParseOutcome.exn e

/-- Removal of the timeline entries that the emitter's transition compression
skips: walking with carried previous level `prev`, an entry whose projected
level at bit `m` equals a non-`"na"` previous level is dropped. -/
def dedupLevels (m : ℕ) : String → List (ℕ × List ℕ) → List (ℕ × List ℕ)
  | _, [] => []
  | prev, e :: rest =>
    let l := levelOf e.2 m
    if prev ≠ "na" ∧ l = prev then dedupLevels m prev rest
    else e :: dedupLevels m l rest

/-- Lookup after `pyDictUpdate` at the written key yields the new value. -/
theorem pyDictGet_update_self {κ α : Type} [DecidableEq κ]
    (d : List (κ × α)) (k : κ) (v : α) :
    pyDictGet (pyDictUpdate d k v) k = some v := by
  induction d with
  | nil => simp [pyDictUpdate, pyDictGet]
  | cons kv rest ih =>
    by_cases h : kv.1 = k
    · simp [pyDictUpdate, pyDictGet, h]
    · simp [pyDictUpdate, pyDictGet, h, ih]

/-- Lookup after `pyDictUpdate` at any other key is unchanged. -/
theorem pyDictGet_update_other {κ α : Type} [DecidableEq κ]
    (d : List (κ × α)) (k k2 : κ) (v : α) (h : k2 ≠ k) :
    pyDictGet (pyDictUpdate d k v) k2 = pyDictGet d k2 := by
  induction d with
  | nil => simp [pyDictUpdate, pyDictGet, Ne.symm h]
  | cons kv rest ih =>
    by_cases hk : kv.1 = k
    · subst hk
      simp [pyDictUpdate, pyDictGet, Ne.symm h]
    · simp [pyDictUpdate, pyDictGet, hk, ih]

/-- Mapping a pointwise successful function collects the plain map. -/
theorem exceptMapList_ok {ε α β : Type} (f : α → β) (l : List α) :
    exceptMapList (fun a => (Except.ok (f a) : Except ε β)) l = Except.ok (l.map f) := by
  induction l with
  | nil => rfl
  | cons x xs ih => simp [exceptMapList, ih]

/-- Repeating a string once is the string itself. -/
theorem pyStrRepeat_one (s : String) : pyStrRepeat s 1 = s := by
  apply String.ext
  simp [pyStrRepeat, String.join]

/-- Joining three tokens whose middle is `"+"` with single spaces. -/
theorem pyJoinSpace_plus (x y : String) : pyJoinSpace [x, "+", y] = x ++ " + " ++ y := by
  apply String.ext
  simp [pyJoinSpace, String.data_append]

section RatKernelReduction

attribute [local semireducible] Rat.add Rat.sub Rat.mul Rat.inv

/-- C8: for every signal and nonnegative value, `Register.update` fails with
the width-overflow `ValueError` exactly when `value.bit_length() > width`, and
on such a failure the register — its timeline and last-known state — is
unchanged. -/
theorem c8_update_width_overflow (r : Register) (t v : ℕ) :
    ((r.update t v).2
        = some (PyError.valueError
            ("Value " ++ toString v ++ " requires more than "
              ++ toString r.width ++ " bits."))
      ↔ pyBitLength v > r.width)
    ∧ ((r.update t v).2.isSome ↔ pyBitLength v > r.width)
    ∧ (pyBitLength v > r.width → (r.update t v).1 = r) := by
  by_cases h : pyBitLength v > r.width <;>
    simp [Register.update, Register.int2bit_array, h]

/-- C8 witness: a 1-bit register rejects the value 2 (`bit_length` 2) and is
left unchanged by the failed update. -/
theorem c8_update_width_overflow_witness :
    (((Register.make VarKind.reg "RTSEL" 1 0).update 0 2).1
        = Register.make VarKind.reg "RTSEL" 1 0)
    ∧ (((Register.make VarKind.reg "RTSEL" 1 0).update 0 2).2.isSome
        ↔ pyBitLength 2 > (Register.make VarKind.reg "RTSEL" 1 0).width) :=
  ⟨(c8_update_width_overflow (Register.make VarKind.reg "RTSEL" 1 0) 0 2).2.2 (by decide),
   (c8_update_width_overflow (Register.make VarKind.reg "RTSEL" 1 0) 0 2).2.1⟩

/-- C2 counterexample: with `base_num = 2`, `base_unit = "ns"`, one tick
converted to `"ns"`, the code returns `round(1 * (1e9/1e9), 3) = 1`, while the
claimed formula `round(ticks * base_num * factor, 3)` gives `2`: `base_num`
is never applied by `convert_to`. -/
theorem c2_counterexample :
    TimeScale.convert_to { base_num := 2, base_unit := "ns" } 1 "ns" = Except.ok 1
    ∧ pyRound3 ((1 : ℚ) * ((2 : ℚ) * ((1000000000 : ℚ) / 1000000000))) = 2
    ∧ (1 : ℚ) ≠ 2 := by
  refine ⟨by decide, by decide, by norm_num⟩

/-- C2 amended: for units present in the table, `convert_to` returns
`round(ticks * (unit_table[target]/unit_table[base_unit]), 3)` — without the
`base_num` factor the claim states; indeed the result is independent of
`base_num`. -/
theorem c2_amended (ts : TimeScale) (ticks : ℕ) (target : String) (a b : ℚ)
    (ha : unit_conversion target = some a) (hb : unit_conversion ts.base_unit = some b) :
    ts.convert_to ticks target = Except.ok (pyRound3 ((ticks : ℚ) * (a / b)))
    ∧ (∀ n : ℕ, TimeScale.convert_to { base_num := n, base_unit := ts.base_unit } ticks target
        = ts.convert_to ticks target) := by
  constructor
  · simp [TimeScale.convert_to, ha, hb]
  · intro n
    rfl

/-- C2 witness: five ticks of a `1 ps` base converted to `"ns"`. -/
theorem c2_amended_witness :
    TimeScale.convert_to { base_num := 1, base_unit := "ps" } 5 "ns"
      = Except.ok (pyRound3 ((5 : ℚ) * ((1000000000 : ℚ) / 1000000000000)))
    ∧ TimeScale.convert_to { base_num := 7, base_unit := "ps" } 5 "ns"
      = TimeScale.convert_to { base_num := 1, base_unit := "ps" } 5 "ns" :=
  ⟨(c2_amended { base_num := 1, base_unit := "ps" } 5 "ns" 1000000000 1000000000000 rfl rfl).1,
   (c2_amended { base_num := 1, base_unit := "ps" } 5 "ns" 1000000000 1000000000000 rfl rfl).2 7⟩

/-- C5 counterexample: after `$scope m` then `$upscope`, the document's
current-module reference still designates the scope `m` — a scope is still
current immediately after a scope-close, refuting the claim that no scope is
current until the next scope-open. -/
theorem c5_counterexample :
    runEvents false {} [LexEvent.tok (Token.scopeTok "m"), LexEvent.tok Token.upscope]
      = Except.ok { top := { module := some (Module.mk "m" []),
                             currentRef := CurrentRef.topRef },
                    timestamp := 0, scope := none }
    ∧ VCDModule.currentModule
        { module := some (Module.mk "m" []), currentRef := CurrentRef.topRef }
        = some (Module.mk "m" [])
    ∧ some (Module.mk "m" []) ≠ (none : Option Module) := by
  refine ⟨by decide, by decide, by decide⟩

/-- C5 amended: a scope-close token clears only the interpreter's local
scope-name variable; the document — in particular its `current_module`
reference, which decides where later declarations attach — is left entirely
unchanged. -/
theorem c5_upscope_amended (full : Bool) (st : ParserState) :
    stepToken full st Token.upscope = Except.ok { st with scope := none } := rfl

/-- C3 counterexample: a literal evaluating to `5.0` renders as `"5.0ns"`,
not `"5ns"`: the decimal representation keeps one fractional digit for an
integral value, so trailing-zero stripping does not yield a bare `5`. -/
theorem c3_counterexample :
    eval_expr (SymExpr.litFloat 5) 1 "ns" = Except.ok "5.0ns"
    ∧ "5.0ns" ≠ "5" ++ "ns" := by
  refine ⟨by decide, by decide⟩

/-- C3 amended: at the base multiplier 1 (the only one the program uses),
each numeric token of the resolved expression is replaced by the Python float
representation of its value with the unit appended — trailing fractional
zeros are stripped but an integral value keeps `".0"` (`5.0 → "5.0"`,
`5.25 → "5.25"`, `2.5 → "2.5"`) — and symbolic tokens pass through
unchanged. -/
theorem c3_amended (q : ℚ) (s unit : String)
    (hq : pyParseFloat (pyFloatRepr q) = some q) (hs : pyParseFloat s = none) :
    eval_expr (SymExpr.litFloat q) 1 unit = Except.ok (pyFloatRepr q ++ unit)
    ∧ eval_expr (SymExpr.symAddFloat s q) 1 unit
        = Except.ok (s ++ " + " ++ (pyFloatRepr q ++ unit))
    ∧ eval_expr (SymExpr.sym s) 1 unit = Except.ok s
    ∧ pyFloatRepr 5 = "5.0" ∧ pyFloatRepr (21/4) = "5.25" ∧ pyFloatRepr (5/2) = "2.5" := by
  have hplus : pyParseFloat "+" = none := by decide
  refine ⟨?_, ?_, ?_, by decide, by decide, by decide⟩
  · simp [eval_expr, sympyTokens, exceptMapList, hq, pyStrRepeat_one, pyJoinSpace]
  · simp [eval_expr, sympyTokens, exceptMapList, hq, hs, hplus, pyStrRepeat_one,
      pyJoinSpace_plus]
  · simp [eval_expr, sympyTokens, exceptMapList, hs, pyJoinSpace]

/-- C3 witness: the resolver on `trf + 5.0` at base 1, unit `ns`. -/
theorem c3_amended_witness :
    eval_expr (SymExpr.litFloat 5) 1 "ns" = Except.ok (pyFloatRepr 5 ++ "ns")
    ∧ eval_expr (SymExpr.symAddFloat "trf" 5) 1 "ns"
        = Except.ok ("trf" ++ " + " ++ (pyFloatRepr 5 ++ "ns"))
    ∧ eval_expr (SymExpr.sym "trf") 1 "ns" = Except.ok "trf" :=
  ⟨(c3_amended 5 "trf" "ns" (by decide) (by decide)).1,
   (c3_amended 5 "trf" "ns" (by decide) (by decide)).2.1,
   (c3_amended 5 "trf" "ns" (by decide) (by decide)).2.2.1⟩

/-- C10: a declared signal that never received an accepted value-change (its
timeline is empty, its export flag still true) is not omitted: each of its
bit positions yields the header `V<pwl_name> <pwl_name> 0 pwl(` immediately
closed by `)` and a blank line, with no time/value points inside. -/
theorem c10_empty_timeline (kind : VarKind) (name : String) (width dim : ℕ)
    (ots : Option TimeScale) (expr : List (String × ℚ)) :
    (Register.make kind name width dim).generate_piecewise_linear ots expr
      = Except.ok (String.join ((List.range width).map
          (fun m => pwl_header (Register.make kind name width dim) m ++ ")\n\n"))) := by
  have hbit : pwl_bit (Register.make kind name width dim) ots expr
      = fun m => Except.ok (pwl_header (Register.make kind name width dim) m ++ ")\n\n") :=
    funext (fun m => rfl)
  have hlen : (Register.make kind name width dim).data.length = width := by
    simp [Register.make]
  unfold Register.generate_piecewise_linear
  rw [hlen, hbit, exceptMapList_ok]
  rfl

/-- C1 counterexample: a 1-bit signal `CLK` with value 0 at tick 0 and 1 at
tick 5, timescale `1 ns`, `tcrf = 0`.  The code emits the two-point clause
`'5.0ns' 0 'tcrf + 5.0ns' vvdd` for the zero parameter — not the claimed
instantaneous step `'5.0ns' vvdd`; the claim has the branch condition
inverted. -/
theorem c1_counterexample :
    ((((Register.make VarKind.reg "CLK" 1 0).update 0 0).1.update 5 1).1).generate_piecewise_linear
        (some { base_num := 1, base_unit := "ns" }) [("trf", 0), ("tcrf", 0)]
      = Except.ok "VCLK CLK 0 pwl(0 0\n+\x275.0ns\x27 0 \x27tcrf + 5.0ns\x27 vvdd )\n\n"
    ∧ "VCLK CLK 0 pwl(0 0\n+\x275.0ns\x27 0 \x27tcrf + 5.0ns\x27 vvdd )\n\n"
      ≠ "VCLK CLK 0 pwl(0 0\n+\x275.0ns\x27 vvdd )\n\n" := by
  refine ⟨by decide, by decide⟩

/-- C1 amended: on a level change the emitter chooses `tcrf` for a signal
named exactly `CLK` and `trf` otherwise, but the branch is the reverse of the
claim: when the chosen parameter's value is zero it emits the two-point
clause `'<t>' <previous> '<t>+<param>' <level>` (the parameter kept symbolic
by the resolver), and when it is nonzero it emits the single-point clause
`'<t>' <level>`. -/
theorem c1_amended (r : Register) (ots : Option TimeScale) (expr : List (String × ℚ))
    (timestamp : ℕ) (prev crnt : String) (t : ℚ) (te trfs : String)
    (hconv : optConvert ots timestamp "ns" = Except.ok t)
    (hte : eval_expr (SymExpr.litFloat t) 1 "ns" = Except.ok te)
    (htrf : eval_expr (SymExpr.symAddFloat (rf_identifier r) t) 1 "ns" = Except.ok trfs) :
    transition_clause r ots expr timestamp prev crnt
      = if pyDictGet expr (rf_identifier r) = some 0
        then Except.ok ("\x27" ++ te ++ "\x27 " ++ prev ++ " \x27" ++ trfs ++ "\x27 "
          ++ crnt ++ " ")
        else Except.ok ("\x27" ++ te ++ "\x27 " ++ crnt ++ " ") := by
  unfold transition_clause
  rw [hconv]
  simp only [hte, htrf]

/-- C1 witness: the `CLK` transition at tick 5 under a `1 ns` timescale with
`tcrf = 1` (nonzero), and the same with `tcrf = 0`. -/
theorem c1_amended_witness :
    transition_clause (Register.make VarKind.reg "CLK" 1 0)
        (some { base_num := 1, base_unit := "ns" }) [("trf", 0), ("tcrf", 1)] 5 "0" "vvdd"
      = (if pyDictGet [("trf", (0 : ℚ)), ("tcrf", 1)]
            (rf_identifier (Register.make VarKind.reg "CLK" 1 0)) = some 0
         then Except.ok ("\x27" ++ "5.0ns" ++ "\x27 " ++ "0" ++ " \x27" ++ "tcrf + 5.0ns"
           ++ "\x27 " ++ "vvdd" ++ " ")
         else Except.ok ("\x27" ++ "5.0ns" ++ "\x27 " ++ "vvdd" ++ " ")) :=
  c1_amended (Register.make VarKind.reg "CLK" 1 0)
    (some { base_num := 1, base_unit := "ns" }) [("trf", 0), ("tcrf", 1)] 5 "0" "vvdd"
    5 "5.0ns" "tcrf + 5.0ns" (by decide) (by decide) (by decide)

/-- C9: transition compression.  A tick whose projected level equals the
carried previous level (itself not `"na"`) emits nothing and leaves the
walk state unchanged; consequently, for every timeline, the emission walk is
unchanged when all such ticks are removed — no two consecutive equal levels
ever produce two segments. -/
theorem c9_transition_compression (r : Register) (ots : Option TimeScale)
    (expr : List (String × ℚ)) (m : ℕ) :
    (∀ (prev line : String) (entry : ℕ × List ℕ),
        prev ≠ "na" → levelOf entry.2 m = prev →
        pwl_step r ots expr m (prev, line) entry = Except.ok (prev, line))
    ∧ (∀ (prev line : String) (entries : List (ℕ × List ℕ)),
        exceptFoldList (pwl_step r ots expr m) (prev, line) entries
          = exceptFoldList (pwl_step r ots expr m) (prev, line) (dedupLevels m prev entries)) := by
  have hstep : ∀ (prev line : String) (entry : ℕ × List ℕ),
      prev ≠ "na" → levelOf entry.2 m = prev →
      pwl_step r ots expr m (prev, line) entry = Except.ok (prev, line) := by
    intro prev line entry hna hlvl
    simp [pwl_step, hna, hlvl]
  refine ⟨hstep, ?_⟩
  intro prev line entries
  induction entries generalizing prev line with
  | nil => rfl
  | cons e rest ih =>
    by_cases hna : prev = "na"
    · subst hna
      have hcond : ¬(("na" : String) ≠ "na" ∧ levelOf e.2 m = "na") := by
        intro h
        exact h.1 rfl
      rw [dedupLevels, if_neg hcond]
      simp only [exceptFoldList, pwl_step, if_pos rfl]
      exact ih (levelOf e.2 m) _
    · by_cases heq : levelOf e.2 m = prev
      · have hcond : prev ≠ "na" ∧ levelOf e.2 m = prev := ⟨hna, heq⟩
        rw [dedupLevels, if_pos hcond]
        have h1 := hstep prev line e hna heq
        calc exceptFoldList (pwl_step r ots expr m) (prev, line) (e :: rest)
            = exceptFoldList (pwl_step r ots expr m) (prev, line) rest := by
              rw [exceptFoldList, h1]
          _ = exceptFoldList (pwl_step r ots expr m) (prev, line) (dedupLevels m prev rest) :=
              ih prev line
      · have hcond : ¬(prev ≠ "na" ∧ levelOf e.2 m = prev) := by
          intro h
          exact heq h.2
        rw [dedupLevels, if_neg hcond]
        rw [exceptFoldList, exceptFoldList]
        have hne2 : prev ≠ levelOf e.2 m := fun h => heq h.symm
        simp only [pwl_step, if_neg hna, if_pos hne2]
        cases htr : transition_clause r ots expr e.1 prev (levelOf e.2 m) with
        | error err => rfl
        | ok clause => exact ih (levelOf e.2 m) (line ++ clause)

/-- C9 witness: a repeated low level at tick 3 after a low level emits
nothing. -/
theorem c9_transition_compression_witness :
    pwl_step (Register.make VarKind.reg "A" 1 0) none [] 0 ("0", "VA A 0 pwl(0 0\n+") (3, [0])
      = Except.ok ("0", "VA A 0 pwl(0 0\n+") :=
  (c9_transition_compression (Register.make VarKind.reg "A" 1 0) none [] 0).1
    "0" "VA A 0 pwl(0 0\n+" (3, [0]) (by decide) (by decide)

/-- C6: an ambiguous (string-carried) value-change stores no timeline entry:
the targeted register is replaced by itself with only `export_pwl_safe`
flipped to `false`, every other identifier's register is untouched; no later
operation resets the flag (`update` preserves it, `tag(True)` clears it), and
a flag-false register is excluded from PWL output (its text is empty). -/
theorem c6_x_state_exclusion (v : VCDModule) (t2 : ℕ) (ident sv : String) (full : Bool)
    (m : Module) (reg : Register) (v2 : VCDModule)
    (hm : v.module = some m) (hreg : pyDictGet m.variables_ ident = some reg)
    (hok : v.update_timing_assignment t2 ident (PyValue.str sv) full = Except.ok v2) :
    (v2.module = some { m with
        variables_ := pyDictUpdate m.variables_ ident { reg with export_pwl_safe := false } }
      ∧ pyDictGet (pyDictUpdate m.variables_ ident { reg with export_pwl_safe := false }) ident
          = some { reg with export_pwl_safe := false }
      ∧ ∀ id2, id2 ≠ ident →
          pyDictGet (pyDictUpdate m.variables_ ident { reg with export_pwl_safe := false }) id2
            = pyDictGet m.variables_ id2)
    ∧ (∀ r : Register, r.export_pwl_safe = false →
        (∀ ts3 val, ((r.update ts3 val).1.export_pwl_safe = false))
        ∧ (r.tag true).export_pwl_safe = false
        ∧ ∀ ots expr, r.generate_piecewise_linear ots expr = Except.ok "") := by
  constructor
  · have hv2 : v2 = v.setTopVar ident (reg.tag true) := by
      unfold VCDModule.update_timing_assignment
        VCDModule.update_timing_assignment_body at hok
      cases hconv : optConvert v.timescale t2 "ns" with
      | error e =>
        rw [hconv] at hok
        simp only [VCDModule.is_reg_top_module, pyDictContains, hm, hreg] at hok
        cases full <;> simp_all
      | ok tv =>
        rw [hconv] at hok
        simp only [VCDModule.is_reg_top_module, pyDictContains, hm, hreg] at hok
        cases full <;> simp_all
    subst hv2
    refine ⟨?_, pyDictGet_update_self _ _ _, fun id2 h2 => pyDictGet_update_other _ _ _ _ h2⟩
    simp [VCDModule.setTopVar, hm, Register.tag]
  · intro r hr
    refine ⟨?_, ?_, ?_⟩
    · intro ts3 val
      cases h : r.int2bit_array val <;> simp [Register.update, h, hr]
    · simp [Register.tag]
    · intro ots expr
      simp [Register.generate_piecewise_linear, hr]

/-- C6 witness: a concrete one-signal document receiving the value `"x"` at
tick 3; the signal keeps its empty timeline, loses export-safety, and emits
nothing. -/
theorem c6_x_state_exclusion_witness :
    VCDModule.update_timing_assignment
        { timescale := some { base_num := 1, base_unit := "ns" },
          module := some (Module.mk "top" [("!", Register.make VarKind.reg "sig" 1 0)]),
          currentRef := CurrentRef.topRef }
        3 "!" (PyValue.str "x") false
      = Except.ok
          { timescale := some { base_num := 1, base_unit := "ns" },
            module := some (Module.mk "top"
              [("!", (Register.make VarKind.reg "sig" 1 0).tag true)]),
            currentRef := CurrentRef.topRef }
    ∧ ((Register.make VarKind.reg "sig" 1 0).tag true).generate_piecewise_linear none []
        = Except.ok "" := by
  have h := c6_x_state_exclusion
    { timescale := some { base_num := 1, base_unit := "ns" },
      module := some (Module.mk "top" [("!", Register.make VarKind.reg "sig" 1 0)]),
      currentRef := CurrentRef.topRef }
    3 "!" "x" false
    (Module.mk "top" [("!", Register.make VarKind.reg "sig" 1 0)])
    (Register.make VarKind.reg "sig" 1 0)
    { timescale := some { base_num := 1, base_unit := "ns" },
      module := some (Module.mk "top"
        [("!", (Register.make VarKind.reg "sig" 1 0).tag true)]),
      currentRef := CurrentRef.topRef }
    rfl (by decide) (by decide)
  exact ⟨by decide,
    (h.2 ((Register.make VarKind.reg "sig" 1 0).tag true) rfl).2.2 none []⟩

/-- C7: document-level export consults only the top module — erasing the
side list (and every other non-top field) leaves the output unchanged; a
scope opened while a top module with a different name exists is appended to
`_shadow_modules` (and the top module is untouched); and a signal declared
while the current reference designates a shadow module never enters the top
module's variables. -/
theorem c7_top_only_export (v : VCDModule) (expr : List (String × ℚ)) (scope2 : String)
    (m : Module) (r : Register) (ident : String) (i : ℕ) (v2 : VCDModule) :
    (VCDModule.export_pwl
        { v with date := "", version := "", currentRef := CurrentRef.noneRef,
                 shadow_modules := [], signals := [], sig_map := [] } expr
      = v.export_pwl expr)
    ∧ (v.module = some m → m.name ≠ scope2 →
        v.update_module scope2
          = { v with shadow_modules := v.shadow_modules ++ [Module.mk scope2 []],
                     currentRef := CurrentRef.shadowRef v.shadow_modules.length })
    ∧ (v.currentRef = CurrentRef.shadowRef i → v.add_reg r ident = Except.ok v2 →
        v2.module = v.module) := by
  refine ⟨rfl, ?_, ?_⟩
  · intro hm hne
    simp [VCDModule.update_module, hm, hne]
  · intro hcur hok
    unfold VCDModule.add_reg VCDModule.add_signal_current at hok
    simp only [hcur] at hok
    cases hget : v.shadow_modules[i]? with
    | none => simp [hget] at hok
    | some m3 =>
      simp only [hget] at hok
      cases hok
      rfl

/-- C7 witness: a second scope `b` opened after top `a` goes to the side
list; a register declared there leaves the top module unchanged; and export
of the resulting document ignores the side list. -/
theorem c7_top_only_export_witness :
    VCDModule.update_module
        { module := some (Module.mk "a" []), currentRef := CurrentRef.topRef } "b"
      = { module := some (Module.mk "a" []), currentRef := CurrentRef.shadowRef 0,
          shadow_modules := [Module.mk "b" []] }
    ∧ ({ module := some (Module.mk "a" []), currentRef := CurrentRef.shadowRef 0,
         shadow_modules := [Module.mk "b" []] } : VCDModule).add_reg
          (Register.make VarKind.reg "sig" 1 0) "!"
        = Except.ok
            { module := some (Module.mk "a" []), currentRef := CurrentRef.shadowRef 0,
              shadow_modules := [Module.mk "b" [("!", Register.make VarKind.reg "sig" 1 0)]],
              signals := [Register.make VarKind.reg "sig" 1 0],
              sig_map := [("!", "sig")] }
    ∧ (Except.ok
          { module := some (Module.mk "a" []), currentRef := CurrentRef.shadowRef 0,
            shadow_modules := [Module.mk "b" [("!", Register.make VarKind.reg "sig" 1 0)]],
            signals := [Register.make VarKind.reg "sig" 1 0],
            sig_map := [("!", "sig")] } : Except PyError VCDModule).map
        (fun v2 => v2.module)
      = Except.ok (some (Module.mk "a" []))
    ∧ VCDModule.export_pwl
        { module := some (Module.mk "a" []), currentRef := CurrentRef.noneRef } []
      = VCDModule.export_pwl
        { module := some (Module.mk "a" []), currentRef := CurrentRef.shadowRef 0,
          shadow_modules := [Module.mk "b" [("!", Register.make VarKind.reg "sig" 1 0)]],
          signals := [Register.make VarKind.reg "sig" 1 0],
          sig_map := [("!", "sig")] } [] := by
  refine ⟨?_, by decide, by decide, ?_⟩
  · exact (c7_top_only_export
      { module := some (Module.mk "a" []), currentRef := CurrentRef.topRef }
      [] "b" (Module.mk "a" []) (Register.make VarKind.reg "sig" 1 0) "!" 0
      { module := some (Module.mk "a" []), currentRef := CurrentRef.topRef }).2.1
      rfl (by decide)
  · exact (c7_top_only_export
      { module := some (Module.mk "a" []), currentRef := CurrentRef.shadowRef 0,
        shadow_modules := [Module.mk "b" [("!", Register.make VarKind.reg "sig" 1 0)]],
        signals := [Register.make VarKind.reg "sig" 1 0],
        sig_map := [("!", "sig")] }
      [] "b" (Module.mk "a" []) (Register.make VarKind.reg "sig" 1 0) "!" 0
      { module := some (Module.mk "a" []), currentRef := CurrentRef.topRef }).1

/-- Time conversion never raises `AssertionError` (only `TypeError` through a
missing unit or `AttributeError` through a missing timescale). -/
theorem optConvert_no_assert (ots : Option TimeScale) (t : ℕ) (u msg : String) :
    optConvert ots t u ≠ Except.error (PyError.assertionError msg) := by
  cases ots with
  | none => simp [optConvert]
  | some ts =>
    simp only [optConvert, TimeScale.convert_to]
    cases unit_conversion u <;> cases unit_conversion ts.base_unit <;> simp

/-- `Register.update` never raises `AssertionError` (only the width
`ValueError`). -/
theorem update_no_assert (r : Register) (t v : ℕ) (msg : String) :
    (r.update t v).2 ≠ some (PyError.assertionError msg) := by
  by_cases h : pyBitLength v > r.width <;>
    simp [Register.update, Register.int2bit_array, h]

/-- The value-update body never raises `AssertionError`. -/
theorem update_timing_assignment_body_no_assert (v : VCDModule) (t2 : ℕ)
    (ident : String) (val : PyValue) (msg : String) :
    v.update_timing_assignment_body t2 ident val
      ≠ Except.error (PyError.assertionError msg) := by
  unfold VCDModule.update_timing_assignment_body
  cases hconv : optConvert v.timescale t2 "ns" with
  | error e =>
    intro h
    injection h with h2
    subst h2
    exact optConvert_no_assert v.timescale t2 "ns" msg hconv
  | ok tv =>
    cases hm : v.module with
    | none => simp
    | some m =>
      cases hg : pyDictGet m.variables_ ident with
      | none => simp [hg]
      | some reg =>
        simp only [hg]
        cases val with
        | str s => simp
        | int n =>
          rcases hru : reg.update t2 n with ⟨reg2, errOpt⟩
          cases errOpt with
          | none => simp [hru]
          | some e =>
            simp only [hru]
            intro h
            injection h with h2
            subst h2
            exact update_no_assert reg t2 n msg (by rw [hru])

/-- `VCDModule.update_timing_assignment` never raises `AssertionError`. -/
theorem update_timing_assignment_no_assert (v : VCDModule) (t2 : ℕ)
    (ident : String) (val : PyValue) (full : Bool) (msg : String) :
    v.update_timing_assignment t2 ident val full
      ≠ Except.error (PyError.assertionError msg) := by
  unfold VCDModule.update_timing_assignment
  cases full with
  | true => simpa using update_timing_assignment_body_no_assert v t2 ident val msg
  | false =>
    simp only [VCDModule.is_reg_top_module]
    cases v.module with
    | none => simp
    | some m =>
      by_cases hmem : pyDictContains m.variables_ ident <;>
        simp [hmem, update_timing_assignment_body_no_assert v t2 ident val msg]

/-- `VCDModule.add_reg` never raises `AssertionError` (only
`AttributeError`). -/
theorem add_reg_no_assert (v : VCDModule) (reg : Register) (ident msg : String) :
    v.add_reg reg ident ≠ Except.error (PyError.assertionError msg) := by
  unfold VCDModule.add_reg VCDModule.add_signal_current
  cases v.currentRef with
  | noneRef => simp
  | topRef => cases hm : v.module <;> simp [hm]
  | shadowRef i => cases hsm : v.shadow_modules[i]? <;> simp [hsm]

/-- The per-token interpreter step never raises `AssertionError`. -/
theorem stepToken_no_assert (full : Bool) (st : ParserState) (tok : Token) (msg : String) :
    stepToken full st tok ≠ Except.error (PyError.assertionError msg) := by
  cases tok with
  | date s => simp [stepToken]
  | version s => simp [stepToken]
  | timescaleTok d =>
    unfold stepToken
    cases hsp : pySplitWs d with
    | nil => simp [hsp]
    | cons b rest =>
      cases rest with
      | nil => simp [hsp]
      | cons u rest2 =>
        cases rest2 with
        | nil => cases hib : pyInt b <;> simp [hsp, hib]
        | cons x rest3 => simp [hsp]
  | scopeTok ident => simp [stepToken]
  | upscope => simp [stepToken]
  | varTok type_ reference size id_code =>
    unfold stepToken
    by_cases hreg : type_ = "reg"
    · cases hadd : st.top.add_reg (Register.make VarKind.reg reference size 0) id_code with
      | error e =>
        simp only [hreg, if_true, hadd]
        intro h
        injection h with h2
        subst h2
        exact add_reg_no_assert st.top (Register.make VarKind.reg reference size 0)
          id_code msg hadd
      | ok top => simp [hreg, hadd]
    · by_cases hwire : type_ = "wire"
      · cases hadd : st.top.add_reg (Register.make VarKind.wire reference size 0) id_code with
        | error e =>
          simp only [hreg, hwire, if_false, if_true, hadd]
          intro h
          injection h with h2
          subst h2
          exact add_reg_no_assert st.top (Register.make VarKind.wire reference size 0)
            id_code msg hadd
        | ok top => simp [hreg, hwire, hadd]
      · simp [hreg, hwire]
  | changeTime t => simp [stepToken]
  | changeScalar id_code value =>
    unfold stepToken
    cases hn : normalizeValue value with
    | error e =>
      have he : e ≠ PyError.assertionError msg := by
        unfold normalizeValue at hn
        cases value with
        | int n => simp at hn
        | str s =>
          split at hn
          · simp at hn
          · split at hn
            · simp at hn
            · split at hn
              · simp at hn
              · injection hn with h3
                subst h3
                simp
      simp [hn, he]
    | ok v2 =>
      cases hu : st.top.update_timing_assignment st.timestamp id_code v2 full with
      | error e =>
        simp only [hn, hu]
        intro h
        injection h with h2
        subst h2
        exact update_timing_assignment_no_assert st.top st.timestamp id_code v2 full msg hu
      | ok top => simp [hn, hu]
  | changeVector id_code value =>
    unfold stepToken
    cases hn : normalizeValue value with
    | error e =>
      have he : e ≠ PyError.assertionError msg := by
        unfold normalizeValue at hn
        cases value with
        | int n => simp at hn
        | str s =>
          split at hn
          · simp at hn
          · split at hn
            · simp at hn
            · split at hn
              · simp at hn
              · injection hn with h3
                subst h3
                simp
      simp [hn, he]
    | ok v2 =>
      cases hu : st.top.update_timing_assignment st.timestamp id_code v2 full with
      | error e =>
        simp only [hn, hu]
        intro h
        injection h with h2
        subst h2
        exact update_timing_assignment_no_assert st.top st.timestamp id_code v2 full msg hu
      | ok top => simp [hn, hu]
  | dumpvar => simp [stepToken]

/-- C4 amended: `parse` returns the accumulated document at normal
end-of-stream and reports any lexer assertion as a parse failure with its
message (the interpreter itself never produces an `AssertionError`); however
non-assertion exceptions are not caught, so `parse` has a third termination
mode in which an exception escapes. -/
theorem c4_parse_outcomes (events : List LexEvent) (st2 : ParserState) (msg : String)
    (full : Bool) (st : ParserState) (tok : Token) :
    (runEvents false {} events = Except.ok st2 →
      VCDParser.parse events = ParseOutcome.doc st2.top)
    ∧ (runEvents false {} events = Except.error (PyError.assertionError msg) →
      VCDParser.parse events = ParseOutcome.parseFailure msg)
    ∧ stepToken full st tok ≠ Except.error (PyError.assertionError msg) := by
  refine ⟨?_, ?_, stepToken_no_assert full st tok msg⟩
  · intro h
    unfold VCDParser.parse
    rw [h]
  · intro h
    unfold VCDParser.parse
    rw [h]

/-- C4 counterexample: a structurally well-formed token stream — scope open,
a declaration, then a value change before any `$timescale` — makes `parse`
neither return a document nor report a `ParseFailure`: the `AttributeError`
raised through the missing timescale escapes uncaught, a third termination
mode the claim denies. -/
theorem c4_counterexample :
    VCDParser.parse
        [LexEvent.tok (Token.scopeTok "top"),
         LexEvent.tok (Token.varTok "reg" "sig" 1 "!"),
         LexEvent.tok (Token.changeScalar "!" (PyValue.str "0"))]
      = ParseOutcome.exn
          (PyError.attributeError "NoneType object has no attribute convert_to") := by
  decide

/-- C4 witness: the empty stream yields the empty document; a lexer
assertion yields the matching parse failure; the interpreter step on a
`$dumpvars` token is no assertion failure. -/
theorem c4_parse_outcomes_witness :
    VCDParser.parse [] = ParseOutcome.doc ({} : ParserState).top
    ∧ VCDParser.parse [LexEvent.lexAssert "boom"] = ParseOutcome.parseFailure "boom"
    ∧ stepToken false {} Token.dumpvar ≠ Except.error (PyError.assertionError "boom") :=
  ⟨(c4_parse_outcomes [] {} "boom" false {} Token.dumpvar).1 rfl,
   (c4_parse_outcomes [LexEvent.lexAssert "boom"] {} "boom" false {} Token.dumpvar).2.1 rfl,
   (c4_parse_outcomes [] {} "boom" false {} Token.dumpvar).2.2⟩

end RatKernelReduction

end Dataflow
